import Mathlib

/-!
Verification of the groupme.js client library: a shallow embedding of its
transport layer (`API.request`, `API.uploadPicture`), attachment model
(`ImageAttachment.fromFile`), message model (`Message`), and bot facade
(`Bot.create`, `Bot.sendMessage`, `Bot.sendImage`), together with theorems
settling the specification's claims about them.

JavaScript values that flow through the library are modelled by `JSValue`
(numbers as `Int`; the claims under study never involve fractional values).
Promises are modelled by `Except`: a resolved promise is `.ok`, a rejected
one is `.error`.  `await` is `Except` bind; a call whose promise is *not*
awaited is a discarded `let`.
-/

/-- A JavaScript value as it appears in this library: `undefined`, `null`,
booleans, numbers, strings, arrays, and plain objects (field lists). -/
inductive JSValue where
  | undefined
  | null
  | bool (b : Bool)
  | num (n : Int)
  | str (s : String)
  | arr (elems : List JSValue)
  | obj (fields : List (String × JSValue))

/-- JavaScript truthiness: `undefined`, `null`, `false`, `0` and `""` are
falsy; every other value (including empty arrays and objects) is truthy. -/
def truthy : JSValue → Bool
  | .undefined => false
  | .null => false
  | .bool b => b
  | .num n => n != 0
  | .str s => s != ""
  | .arr _ => true
  | .obj _ => true

/-- `null` and `undefined`: property access on these throws a TypeError. -/
def JSValue.isNullish : JSValue → Bool
  | .null => true
  | .undefined => true
  | _ => false

/-- Property lookup on a non-nullish value: an object's field (or `undefined`
when absent); `undefined` on primitives and arrays for the property names this
library uses (`meta`, `code`, `errors`, `response`, `bot`, field names). -/
def propValue : JSValue → String → JSValue
  | .obj fields, key =>
    match fields.lookup key with
    | some v => v
    | none => .undefined
  | _, _ => .undefined

/-- JavaScript property access `v[key]`: throws a TypeError (modelled as
`.error ()`) on `null`/`undefined`, otherwise yields `propValue`. -/
def getProp (v : JSValue) (key : String) : Except Unit JSValue :=
  if v.isNullish then .error () else .ok (propValue v key)

/-- Integer reading of JavaScript `Number(string)` coercion: surrounding
whitespace ignored, empty string is `0`, an optional sign followed by digits
is that integer, anything else is NaN (`none`).  (Fractional literals are
outside the `Int` number model; they are never 400-or-above integers.) -/
def strToNumber (s : String) : Option Int :=
  let t := s.trim
  if t = "" then some 0
  else
    let (sign, digits) :=
      if t.startsWith "-" then ((-1 : Int), t.drop 1)
      else if t.startsWith "+" then ((1 : Int), t.drop 1)
      else ((1 : Int), t)
    if digits ≠ "" ∧ digits.toList.all Char.isDigit then
      some (sign * (digits.toList.foldl (fun a c => a * 10 + (c.toNat - 48)) 0 : Nat))
    else none

/-- JavaScript `ToNumber` on the values reaching the `>= 400` comparison:
`undefined` is NaN, `null` is `0`, booleans are `0`/`1`, numbers themselves,
strings via `strToNumber`.  Arrays and objects coerce through `ToPrimitive`;
they are approximated as NaN here (none of the envelope comparisons in this
development applies `>=` to an array or object code). -/
def toNumber : JSValue → Option Int
  | .undefined => none
  | .null => some 0
  | .bool b => some (if b then 1 else 0)
  | .num n => some n
  | .str s => strToNumber s
  | .arr _ => none
  | .obj _ => none

/-- The JavaScript comparison `v >= bound`: false when `ToNumber(v)` is NaN. -/
def jsGE (v : JSValue) (bound : Int) : Bool :=
  match toNumber v with
  | some m => bound ≤ m
  | none => false

mutual
/-- JavaScript `String(element)` as used by `Array.prototype.join`:
`null`/`undefined` render as the empty string, arrays join recursively with
`","`, plain objects render as `"[object Object]"`. -/
def elemToString : JSValue → String
  | .undefined => ""
  | .null => ""
  | .bool b => if b then "true" else "false"
  | .num n => toString n
  | .str s => s
  | .arr xs => String.intercalate "," (elemsToStrings xs)
  | .obj _ => "[object Object]"

/-- `String(element)` mapped over a list of array elements. -/
def elemsToStrings : List JSValue → List String
  | [] => []
  | x :: xs => elemToString x :: elemsToStrings xs
end

/-- `Array.prototype.join(', ')` as called on `meta.errors`: a TypeError
(`none`) unless the receiver is an array. -/
def jsJoinCommaSpace : JSValue → Option String
  | .arr xs => some (String.intercalate ", " (elemsToStrings xs))
  | _ => none

/-- The guard on line 86 of the client:
`responseJSON && responseJSON.meta && responseJSON.meta.code >= 400`. -/
def errorEnvelope (responseJSON : JSValue) : Bool :=
  truthy responseJSON
    && truthy (propValue responseJSON "meta")
    && jsGE (propValue (propValue responseJSON "meta") "code") 400

/-- Outcome of `API.request`'s response handling: a resolved value, a thrown
`ApiError` built from the remote envelope, a thrown `ApiError` for an
unparsable body, or a thrown TypeError (a plain JavaScript runtime error,
not an `ApiError`). -/
inductive RequestOutcome where
  | ok (value : JSValue)
  | apiError (statusCode : Int) (message : String) (responseJSON : JSValue)
  | jsonParseError (statusCode : Int)
  | typeError

/-- Lines 86–90 of the client, applied to the parsed response body:
throw `ApiError(status, "API Error: " + meta.errors.join(', '), body)` when
the envelope reports `meta.code >= 400`; otherwise return
`responseJSON.response !== undefined ? responseJSON.response : responseJSON`.
Property access on a parsed `null` body and `.join` on a non-array `errors`
surface as TypeErrors, exactly as in JavaScript. -/
def normalizeBody (status : Int) (responseJSON : JSValue) : RequestOutcome :=
  if errorEnvelope responseJSON then
    match jsJoinCommaSpace (propValue (propValue responseJSON "meta") "errors") with
    | some joined => .apiError status ("API Error: " ++ joined) responseJSON
    | none => .typeError
  else
    match getProp responseJSON "response" with
    | .error _ => .typeError
    | .ok .undefined => .ok responseJSON
    | .ok v => .ok v

/-- Lines 72–91 of the client: on HTTP status 202 or 204 resolve `null`
before the body is read; on an empty body resolve `null`; otherwise run the
body through `JSON.parse` (the `parse` parameter, `none` meaning a parse
failure, which throws `ApiError(status, "Invalid JSON response: ...", null)`)
and normalizeBody the parsed value. -/
def requestResponsePhase (parse : String → Option JSValue) (status : Int)
    (text : String) : RequestOutcome :=
  if status == 202 || status == 204 then .ok .null
  else if text == "" then .ok .null
  else
    match parse text with
    | none => .jsonParseError status
    | some responseJSON => normalizeBody status responseJSON

/-- The `ApiError` class: an HTTP-status-like code, a message, and the parsed
response body (`JSValue.null` when the constructor received `null`). -/
structure ApiError where
  statusCode : Int
  message : String
  responseJSON : JSValue

/-- The process-wide configuration the client reads: the `GM_TOKEN`
environment variable (`none` when unset). -/
structure Config where
  gmToken : Option String

/-- `API.getAccessToken`: throws `ApiError(401, ..., null)` when
`process.env.GM_TOKEN` is falsy (unset, or set to the empty string). -/
def API.getAccessToken (cfg : Config) : Except ApiError String :=
  match cfg.gmToken with
  | none =>
    .error ⟨401, "Access token is required. Set it via the GM_TOKEN environment variable.", .null⟩
  | some t =>
    if t = "" then
      .error ⟨401, "Access token is required. Set it via the GM_TOKEN environment variable.", .null⟩
    else .ok t

/-- The HTTP exchange `API.request` hands to `fetch` once it is past the
token precondition. -/
structure HttpRequest where
  method : String
  url : String
  headers : List (String × String)
  body : Option JSValue

/-- `API.BASE_URL`. -/
def BASE_URL : String := "https://api.groupme.com/v3"

/-- One property assignment of a JavaScript object literal: overwrite the
existing entry in place, else append. -/
def objAssign (fields : List (String × String)) (key value : String) :
    List (String × String) :=
  if fields.any (fun p => p.1 == key) then
    fields.map (fun p => if p.1 == key then (key, value) else p)
  else fields ++ [(key, value)]

/-- The object literal `{ token: accessToken, ...params }`: the token entry
first, then every entry of `params` assigned in order (a caller-supplied
`token` key therefore overwrites the configured token). -/
def mergeParams (accessToken : String) (params : List (String × String)) :
    List (String × String) :=
  params.foldl (fun acc p => objAssign acc p.1 p.2) [("token", accessToken)]

/-- `URLSearchParams(...).toString()` over the merged entries (key order and
values as merged; percent-encoding is not modelled, no claim depends on it). -/
def renderQuery (q : List (String × String)) : String :=
  String.intercalate "&" (q.map (fun p => p.1 ++ "=" ++ p.2))

/-- Lines 56–67 of `API.request`: read the token (throwing before any network
activity when it is absent), build the URL from `BASE_URL`, the path and the
merged query, and attach the JSON body when it is truthy.  The resulting
`HttpRequest` is what `fetch` receives; an `.error` means `fetch` is never
reached. -/
def API.requestBuild (cfg : Config) (method path : String) (body : Option JSValue)
    (params : List (String × String)) : Except ApiError HttpRequest :=
  match API.getAccessToken cfg with
  | .error e => .error e
  | .ok accessToken =>
    .ok
      { method := method
      , url := BASE_URL ++ path ++ "?" ++ renderQuery (mergeParams accessToken params)
      , headers := [("Content-Type", "application/json")]
      , body :=
          match body with
          | some b => if truthy b then some b else none
          | none => none }

/-- The binary exchange `API.uploadPicture` hands to `fetch`. -/
structure UploadRequest where
  method : String
  url : String
  headers : List (String × String)
  bytes : List Nat

/-- Lines 154–161 of `API.uploadPicture`: the token is read while building
the request object (throwing before `fetch` when absent); the request carries
the token in the `X-Access-Token` header and the caller's content type. -/
def API.uploadPictureBuild (cfg : Config) (fileBuffer : List Nat)
    (contentType : String) : Except ApiError UploadRequest :=
  match API.getAccessToken cfg with
  | .error e => .error e
  | .ok accessToken =>
    .ok
      { method := "POST"
      , url := "https://image.groupme.com/pictures"
      , headers := [("X-Access-Token", accessToken), ("Content-Type", contentType)]
      , bytes := fileBuffer }

/-- The body `{ bot: { name, group_id } }` built by `API.createBot` — the
function declares exactly the two parameters `name` and `group_id`. -/
def API.createBotBody (name group_id : JSValue) : JSValue :=
  .obj [("bot", .obj [("name", name), ("group_id", group_id)])]

/-- `API.createBot(name, group_id)`: `request('POST', '/bots', { bot: { name, group_id } })`. -/
def API.createBotRequest (cfg : Config) (name group_id : JSValue) :
    Except ApiError HttpRequest :=
  API.requestBuild cfg "POST" "/bots" (some (API.createBotBody name group_id)) []

/-- The request issued by `Bot.create(name, groupId, options)`.  The facade
passes three arguments to `API.createBot`, but `createBot` declares only
`(name, group_id)`, so JavaScript discards the third argument: `options`
never reaches the request body. -/
def Bot.createRequest (cfg : Config) (name groupId : JSValue)
    (options : List (String × JSValue)) : Except ApiError HttpRequest :=
  API.createBotRequest cfg name groupId

/-- The basename of a posix path: the characters after the last `/`. -/
def basenameChars (cs : List Char) : List Char :=
  (cs.reverse.takeWhile (fun c => c != '/')).reverse

/-- `path.extname` (posix): the part of the basename from its last `.` to the
end; empty when the basename has no `.`, starts with its only `.` (dotfiles),
or is `..`. -/
def extname (p : String) : String :=
  let base := basenameChars p.toList
  if base = ['.', '.'] then ""
  else
    match base.reverse.findIdx? (fun c => c == '.') with
    | none => ""
    | some j =>
      let i := base.length - 1 - j
      if i = 0 then "" else String.mk (base.drop i)

/-- `String.prototype.toLowerCase` (the extensions involved are ASCII). -/
def toLowerCase (s : String) : String :=
  String.mk (s.toList.map Char.toLower)

/-- The `mimeTypes` lookup table of `ImageAttachment.fromFile`. -/
def mimeTypes : List (String × String) :=
  [(".png", "image/png"), (".jpg", "image/jpeg"), (".jpeg", "image/jpeg"),
   (".gif", "image/gif")]

/-- Lines 201–210 of `ImageAttachment.fromFile`: `if (!fileType)` — when the
caller-supplied type is falsy (absent or the empty string) the type is
inferred as `mimeTypes[path.extname(filePath).toLowerCase()] ||
'application/octet-stream'`; otherwise the caller's value is used. -/
def resolveFileType (filePath : String) (fileType : Option String) : String :=
  let inferred :=
    match mimeTypes.lookup (toLowerCase (extname filePath)) with
    | some t => t
    | none => "application/octet-stream"
  match fileType with
  | none => inferred
  | some t => if t = "" then inferred else t

/-- An `ImageAttachment`: `type` is always `"image"`, `url` the hosted URL. -/
structure ImageAttachment where
  type : String
  url : String

/-- What `ImageAttachment.fromFile` can throw: a filesystem error from
`fs.readFile`, or the error thrown by `API.uploadPicture`. -/
inductive FromFileError where
  | fsError
  | apiError (e : ApiError)

/-- `ImageAttachment.fromFile(filePath, fileType)`: await the file read, pick
the content type via `resolveFileType`, await the upload, and wrap the hosted
URL via `new ImageAttachment(url)` (whose constructor sets `type` to
`"image"`).  The file read and the upload are the two awaited effects,
passed in as `readFile` and `uploadPicture`. -/
def ImageAttachment.fromFile (readFile : String → Except Unit (List Nat))
    (uploadPicture : List Nat → String → Except ApiError String)
    (filePath : String) (fileType : Option String) :
    Except FromFileError ImageAttachment :=
  match readFile filePath with
  | .error _ => .error .fsError
  | .ok fileBuffer =>
    match uploadPicture fileBuffer (resolveFileType filePath fileType) with
    | .error e => .error (.apiError e)
    | .ok imageUrl => .ok ⟨"image", imageUrl⟩

/-- The `Message` model: each constructor assignment copies one property of
the raw payload (so a missing property surfaces as `undefined`), except
`attachments`, which is `data.attachments || []`. -/
structure Message where
  attachments : JSValue
  avatarUrl : JSValue
  createdAt : JSValue
  groupId : JSValue
  id : JSValue
  name : JSValue
  senderId : JSValue
  senderType : JSValue
  sourceGuid : JSValue
  isSystem : JSValue
  text : JSValue
  userId : JSValue

/-- The `Message` constructor on a raw payload: property access on a nullish
payload throws (`.error ()`); otherwise every recognized field is copied
verbatim, with `attachments` defaulted to `[]` when falsy. -/
def Message.fromData (data : JSValue) : Except Unit Message :=
  if data.isNullish then .error ()
  else
    .ok
      { attachments :=
          if truthy (propValue data "attachments") then propValue data "attachments"
          else .arr []
      , avatarUrl := propValue data "avatar_url"
      , createdAt := propValue data "created_at"
      , groupId := propValue data "group_id"
      , id := propValue data "id"
      , name := propValue data "name"
      , senderId := propValue data "sender_id"
      , senderType := propValue data "sender_type"
      , sourceGuid := propValue data "source_guid"
      , isSystem := propValue data "system"
      , text := propValue data "text"
      , userId := propValue data "user_id" }

/-- `String.prototype.startsWith`: the prefix test on the characters. -/
def strStartsWith (s pre : String) : Bool :=
  pre.toList.isPrefixOf s.toList

/-- `Message.startsWith(trigger)`, i.e. `this.text && this.text.startsWith(trigger)`:
when `this.text` is falsy the expression evaluates to that falsy value itself;
when it is a truthy string, to the boolean prefix test; a truthy non-string
would throw (`.startsWith` is not a function on it). -/
def Message.jsStartsWith (m : Message) (trigger : String) : Except Unit JSValue :=
  if truthy m.text then
    match m.text with
    | .str s => .ok (.bool (strStartsWith s trigger))
    | _ => .error ()
  else .ok m.text

/-- `Bot.sendMessage(text, attachments)`: awaits `API.postBot(...)` (the
`postResult` argument is that call's pending outcome) and resolves with
`undefined`. -/
def Bot.sendMessage (postResult : Except ApiError JSValue) :
    Except ApiError JSValue :=
  match postResult with
  | .error e => .error e
  | .ok _ => .ok .undefined

/-- `Bot.sendImage(text, imagePath)`: awaits `ImageAttachment.fromFile`
(`fromFileResult`), then calls `this.sendMessage(text, [attachment])`
WITHOUT `await` — the call's outcome is discarded and `sendImage` resolves
immediately with `undefined`. -/
def Bot.sendImage (fromFileResult : Except FromFileError ImageAttachment)
    (postBot : ImageAttachment → Except ApiError JSValue) :
    Except FromFileError JSValue :=
  match fromFileResult with
  | .error e => .error e
  | .ok attachment =>
    let _pending := Bot.sendMessage (postBot attachment)
    .ok .undefined



/-- Whether a value is a JavaScript array. -/
def JSValue.isArray : JSValue → Bool
  | .arr _ => true
  | _ => false

/-- The message constructed from the empty payload `{}`: every copied field is
`undefined` and `attachments` defaults to the empty list. -/
def msgNoText : Message :=
  ⟨.arr [], .undefined, .undefined, .undefined, .undefined, .undefined,
   .undefined, .undefined, .undefined, .undefined, .undefined, .undefined⟩

/-- The message constructed from the payload `{attachments: 5}`: the truthy,
non-list number is kept verbatim. -/
def msgNumAttachments : Message :=
  ⟨.num 5, .undefined, .undefined, .undefined, .undefined, .undefined,
   .undefined, .undefined, .undefined, .undefined, .undefined, .undefined⟩

/-- A message whose text body is the non-empty string `"!ping"`. -/
def msgBang : Message :=
  ⟨.arr [], .undefined, .undefined, .undefined, .undefined, .undefined,
   .undefined, .undefined, .undefined, .undefined, .str "!ping", .undefined⟩

/-! Lemmas about object-literal assignment and the query merge. -/

theorem lookup_cons (k a b : String) (l : List (String × String)) :
    List.lookup k ((a, b) :: l) = if k = a then some b else List.lookup k l := by
  rw [List.lookup]
  by_cases h : k = a
  · simp [h]
  · simp [beq_eq_false_iff_ne.mpr h, h]

theorem lookup_map_overwrite (fs : List (String × String)) (k v : String)
    (h : fs.any (fun p => p.1 == k) = true) :
    (fs.map (fun p => if p.1 == k then (k, v) else p)).lookup k = some v := by
  induction fs with
  | nil => simp at h
  | cons hd tl ih =>
    obtain ⟨a, b⟩ := hd
    by_cases hk : a = k
    · subst hk
      simp [lookup_cons]
    · have h' : tl.any (fun p => p.1 == k) = true := by
        simp only [List.any_cons] at h
        simpa [hk] using h
      simpa [hk, lookup_cons, Ne.symm hk] using ih h'

theorem lookup_map_other (fs : List (String × String)) (k v q : String)
    (hq : q ≠ k) :
    (fs.map (fun p => if p.1 == k then (k, v) else p)).lookup q = fs.lookup q := by
  induction fs with
  | nil => rfl
  | cons hd tl ih =>
    obtain ⟨a, b⟩ := hd
    by_cases hk : a = k
    · subst hk
      simpa [lookup_cons, hq] using ih
    · by_cases hqa : q = a
      · subst hqa
        simp [hk, lookup_cons]
      · simpa [hk, lookup_cons, hqa] using ih

theorem lookup_append_single_self (fs : List (String × String)) (k v : String)
    (h : fs.any (fun p => p.1 == k) = false) :
    (fs ++ [(k, v)]).lookup k = some v := by
  induction fs with
  | nil => simp [lookup_cons]
  | cons hd tl ih =>
    obtain ⟨a, b⟩ := hd
    simp only [List.any_cons, Bool.or_eq_false_iff] at h
    obtain ⟨h1, h2⟩ := h
    have hka : k ≠ a := Ne.symm (beq_eq_false_iff_ne.mp h1)
    simpa [lookup_cons, hka] using ih h2

theorem lookup_append_single_other (fs : List (String × String)) (k v q : String)
    (hq : q ≠ k) :
    (fs ++ [(k, v)]).lookup q = fs.lookup q := by
  induction fs with
  | nil => simp [lookup_cons, hq]
  | cons hd tl ih =>
    obtain ⟨a, b⟩ := hd
    by_cases hqa : q = a
    · subst hqa
      simp [lookup_cons]
    · simpa [lookup_cons, hqa] using ih

theorem lookup_objAssign_self (fs : List (String × String)) (k v : String) :
    (objAssign fs k v).lookup k = some v := by
  unfold objAssign
  by_cases h : fs.any (fun p => p.1 == k) = true
  · rw [if_pos h]
    exact lookup_map_overwrite fs k v h
  · rw [if_neg h]
    exact lookup_append_single_self fs k v (Bool.eq_false_iff.mpr h)

theorem lookup_objAssign_other (fs : List (String × String)) (k v q : String)
    (hq : q ≠ k) :
    (objAssign fs k v).lookup q = fs.lookup q := by
  unfold objAssign
  by_cases h : fs.any (fun p => p.1 == k) = true
  · rw [if_pos h]
    exact lookup_map_other fs k v q hq
  · rw [if_neg h]
    exact lookup_append_single_other fs k v q hq

theorem lookup_foldl_no_token (rest : List (String × String))
    (h : ∀ p ∈ rest, p.1 ≠ "token") (acc : List (String × String)) :
    (rest.foldl (fun acc p => objAssign acc p.1 p.2) acc).lookup "token"
      = acc.lookup "token" := by
  induction rest generalizing acc with
  | nil => rfl
  | cons hd tl ih =>
    rw [List.foldl_cons]
    rw [ih (fun p hp => h p (List.mem_cons_of_mem _ hp))]
    exact lookup_objAssign_other acc hd.1 hd.2 "token"
      (Ne.symm (h hd (List.mem_cons_self _ _)))

theorem lookup_foldl_caller_token (params : List (String × String)) (v : String)
    (hnodup : (params.map Prod.fst).Nodup)
    (hv : params.lookup "token" = some v) (acc : List (String × String)) :
    (params.foldl (fun acc p => objAssign acc p.1 p.2) acc).lookup "token"
      = some v := by
  induction params generalizing acc with
  | nil => simp [List.lookup] at hv
  | cons hd tl ih =>
    obtain ⟨a, b⟩ := hd
    rw [List.foldl_cons]
    by_cases hk : a = "token"
    · subst hk
      rw [lookup_cons, if_pos rfl] at hv
      have hmem : "token" ∉ tl.map Prod.fst :=
        (List.nodup_cons.mp (by simpa using hnodup)).1
      have hni : ∀ p ∈ tl, p.1 ≠ "token" := by
        intro p hp hpe
        exact hmem (hpe ▸ List.mem_map_of_mem Prod.fst hp)
      rw [lookup_foldl_no_token tl hni]
      rw [Option.some.injEq] at hv
      rw [hv]
      exact lookup_objAssign_self acc "token" v
    · have hv' : tl.lookup "token" = some v := by
        rw [lookup_cons, if_neg (Ne.symm hk)] at hv
        exact hv
      exact ih (List.Nodup.of_cons (by simpa using hnodup)) hv' _

/-- A caller-supplied `token` query parameter ends up as the token carried in
the merged query. -/
theorem mergeParams_caller_token (accessToken : String)
    (params : List (String × String)) (v : String)
    (hnodup : (params.map Prod.fst).Nodup)
    (hv : params.lookup "token" = some v) :
    (mergeParams accessToken params).lookup "token" = some v :=
  lookup_foldl_caller_token params v hnodup hv [("token", accessToken)]

/-! Claim theorems. -/

/-- Claim C1 (code bug evaluated at the failing input): the request issued by
`Bot.create("Test Bot", 1234567890, {active: true})` carries the body
`{bot: {name, group_id}}` only — the caller-supplied `active` option never
appears inside the body's `bot` object, because `API.createBot` declares just
the two parameters `(name, group_id)` and JavaScript discards the third
argument `Bot.create` passes. -/
theorem createBot_drops_options :
    Bot.createRequest ⟨some "TOKEN"⟩ (.str "Test Bot") (.num 1234567890)
        [("active", .bool true)]
      = .ok
          { method := "POST"
          , url := "https://api.groupme.com/v3/bots?token=TOKEN"
          , headers := [("Content-Type", "application/json")]
          , body := some (.obj [("bot",
              .obj [("name", .str "Test Bot"), ("group_id", .num 1234567890)])]) }
    ∧ propValue
        (propValue (API.createBotBody (.str "Test Bot") (.num 1234567890)) "bot")
        "active" = .undefined :=
  ⟨rfl, rfl⟩

/-- Claim C2 (code bug evaluated at the failing input): when the bot-post
call rejects, `Bot.sendMessage` propagates the rejection, but `Bot.sendImage`
still resolves successfully (with `undefined`) because it does not await its
`this.sendMessage(...)` call — the send failure is discarded rather than
propagated to `sendImage`'s caller. -/
theorem sendImage_discards_send_failure :
    Bot.sendMessage (.error ⟨500, "Internal Server Error", .null⟩)
      = .error ⟨500, "Internal Server Error", .null⟩
    ∧ Bot.sendImage (.ok ⟨"image", "https://i.groupme.com/x.png"⟩)
        (fun _ => .error ⟨500, "Internal Server Error", .null⟩)
      = .ok .undefined :=
  ⟨rfl, rfl⟩

/-- Claim C3 (counterexample): the body text `"null"` parses successfully to
JSON `null`, which is not an error envelope, yet `request` does not return it
verbatim — evaluating `responseJSON.response` on `null` throws a TypeError. -/
theorem request_null_body_throws :
    errorEnvelope JSValue.null = false
    ∧ normalizeBody 200 JSValue.null = .typeError
    ∧ RequestOutcome.typeError ≠ RequestOutcome.ok JSValue.null :=
  ⟨rfl, rfl, by simp⟩

/-- Claim C3 (amended): for every successfully parsed non-`null` response
body that is not an error envelope, `request` returns the `response` field's
value when that field is present (non-`undefined`), and the parsed body
verbatim otherwise. -/
theorem request_unwraps_response_envelope (status : Int) (responseJSON : JSValue)
    (hnull : responseJSON ≠ .null) (hundef : responseJSON ≠ .undefined)
    (henv : errorEnvelope responseJSON = false) :
    (∀ v, propValue responseJSON "response" = v → v ≠ .undefined →
        normalizeBody status responseJSON = .ok v)
    ∧ (propValue responseJSON "response" = .undefined →
        normalizeBody status responseJSON = .ok responseJSON) := by
  have hnn : responseJSON.isNullish = false := by
    cases responseJSON <;> simp [JSValue.isNullish] at hnull hundef ⊢
  constructor
  · intro v hv hvu
    unfold normalizeBody
    rw [if_neg (by simp [henv] : ¬errorEnvelope responseJSON = true)]
    unfold getProp
    rw [if_neg (by simp [hnn] : ¬responseJSON.isNullish = true)]
    rw [hv]
    cases v <;> simp_all
  · intro hv
    unfold normalizeBody
    rw [if_neg (by simp [henv] : ¬errorEnvelope responseJSON = true)]
    unfold getProp
    rw [if_neg (by simp [hnn] : ¬responseJSON.isNullish = true)]
    rw [hv]

theorem request_unwraps_response_envelope_witness :
    normalizeBody 200 (.obj [("response", .num 7)]) = .ok (.num 7)
    ∧ normalizeBody 200 (.str "plain") = .ok (.str "plain") :=
  ⟨(request_unwraps_response_envelope 200 (.obj [("response", .num 7)])
      (by simp) (by simp) rfl).1 (.num 7) rfl (by simp),
   (request_unwraps_response_envelope 200 (.str "plain")
      (by simp) (by simp) rfl).2 rfl⟩

/-- Claim C4 (counterexample): on the envelope
`{meta: {code: 400, errors: ["a", "b"]}}` with HTTP status 400, `request`
throws an `ApiError` whose message is `"API Error: a, b"` — the `', '`-joined
error list behind the fixed prefix `"API Error: "` — and not the bare
`','`-joined list `"a,b"` the claim states. -/
theorem request_error_message_has_prefix :
    normalizeBody 400
        (.obj [("meta",
          .obj [("code", .num 400), ("errors", .arr [.str "a", .str "b"])])])
      = .apiError 400 "API Error: a, b"
          (.obj [("meta",
            .obj [("code", .num 400), ("errors", .arr [.str "a", .str "b"])])])
    ∧ ("API Error: a, b" : String) ≠ "a,b" :=
  ⟨rfl, by decide⟩

/-- Claim C4 (amended): for every parsed response body whose `meta.code` is a
number `≥ 400` and whose `meta.errors` is a list, `request` throws an
`ApiError` carrying the HTTP status, the message `"API Error: "` followed by
the `', '`-joined `meta.errors` list, and the full parsed payload. -/
theorem request_error_envelope_throws (status : Int)
    (fields mfields : List (String × JSValue)) (n : Int) (errs : List JSValue)
    (hmeta : fields.lookup "meta" = some (.obj mfields))
    (hcode : mfields.lookup "code" = some (.num n))
    (hn : 400 ≤ n)
    (herrs : mfields.lookup "errors" = some (.arr errs)) :
    normalizeBody status (.obj fields)
      = .apiError status
          ("API Error: " ++ String.intercalate ", " (elemsToStrings errs))
          (.obj fields) := by
  have henv : errorEnvelope (.obj fields) = true := by
    simp [errorEnvelope, truthy, propValue, hmeta, hcode, jsGE, toNumber, hn]
  unfold normalizeBody
  rw [if_pos henv]
  simp [propValue, hmeta, herrs, jsJoinCommaSpace]

theorem request_error_envelope_throws_witness :
    normalizeBody 404
        (.obj [("meta",
          .obj [("code", .num 404), ("errors", .arr [.str "not found"])])])
      = .apiError 404
          ("API Error: " ++ String.intercalate ", " (elemsToStrings [.str "not found"]))
          (.obj [("meta",
            .obj [("code", .num 404), ("errors", .arr [.str "not found"])])]) :=
  request_error_envelope_throws 404 _ _ 404 _ rfl rfl (by norm_num) rfl

/-- Claim C5 (confirmed): on HTTP status 202 or 204 `request` resolves `null`
whatever the body and however `JSON.parse` would behave (the body is neither
read nor parsed — the result does not depend on `text` or `parse`), and on an
empty body it also resolves `null`. -/
theorem request_empty_results (parse : String → Option JSValue) (status : Int)
    (text : String) :
    ((status = 202 ∨ status = 204) →
        requestResponsePhase parse status text = .ok .null)
    ∧ (text = "" → requestResponsePhase parse status text = .ok .null) := by
  constructor
  · rintro (rfl | rfl) <;> simp [requestResponsePhase]
  · rintro rfl
    unfold requestResponsePhase
    by_cases h : (status == 202 || status == 204) = true
    · rw [if_pos h]
    · rw [if_neg h]
      simp

theorem request_empty_results_witness :
    requestResponsePhase (fun _ => none) 202 "garbage" = .ok .null
    ∧ requestResponsePhase (fun _ => none) 500 "" = .ok .null :=
  ⟨(request_empty_results (fun _ => none) 202 "garbage").1 (Or.inl rfl),
   (request_empty_results (fun _ => none) 500 "").2 rfl⟩

/-- Claim C6 (counterexample): on a message whose text body is absent,
`Message.startsWith("!")` evaluates to `undefined` — a falsy value, but not
the boolean `false` the claim states (`a && b` yields the falsy `a` itself). -/
theorem startsWith_absent_text_is_undefined :
    Message.fromData (.obj []) = .ok msgNoText
    ∧ Message.jsStartsWith msgNoText "!" = .ok .undefined
    ∧ JSValue.undefined ≠ JSValue.bool false :=
  ⟨rfl, rfl, by simp⟩

/-- Claim C6 (amended): `Message.startsWith(prefix)` never throws on a falsy
text body — it returns that falsy value itself (`undefined` when the field is
absent, `null` or `""` likewise) — and on a non-empty string text body it
returns the boolean of the standard prefix test. -/
theorem startsWith_falsy_text (m : Message) (trigger : String) :
    (truthy m.text = false → Message.jsStartsWith m trigger = .ok m.text)
    ∧ (∀ s, m.text = .str s → s ≠ "" →
        Message.jsStartsWith m trigger = .ok (.bool (strStartsWith s trigger))) := by
  constructor
  · intro h
    unfold Message.jsStartsWith
    rw [if_neg (by simp [h])]
  · intro s hs hne
    unfold Message.jsStartsWith
    rw [if_pos (by simp [hs, truthy, hne])]
    rw [hs]

theorem startsWith_falsy_text_witness :
    Message.jsStartsWith msgBang "!" = .ok (.bool (strStartsWith "!ping" "!"))
    ∧ Message.jsStartsWith msgNumAttachments "!" = .ok msgNumAttachments.text :=
  ⟨(startsWith_falsy_text msgBang "!").2 "!ping" rfl (by decide),
   (startsWith_falsy_text msgNumAttachments "!").1 rfl⟩

/-- Claim C7 (confirmed): with no access token in the process-wide
configuration, both the generic JSON request and the binary picture upload
fail with the 401 authentication `ApiError` while building the exchange —
no `HttpRequest`/`UploadRequest` is ever produced, so no network activity
can occur. -/
theorem missing_token_fails_before_network (cfg : Config)
    (h : cfg.gmToken = none) :
    (∀ method path body params,
        API.requestBuild cfg method path body params
          = .error ⟨401,
              "Access token is required. Set it via the GM_TOKEN environment variable.",
              .null⟩)
    ∧ (∀ fileBuffer contentType,
        API.uploadPictureBuild cfg fileBuffer contentType
          = .error ⟨401,
              "Access token is required. Set it via the GM_TOKEN environment variable.",
              .null⟩) := by
  constructor
  · intro method path body params
    unfold API.requestBuild API.getAccessToken
    rw [h]
  · intro fileBuffer contentType
    unfold API.uploadPictureBuild API.getAccessToken
    rw [h]

theorem missing_token_fails_before_network_witness :
    API.requestBuild ⟨none⟩ "GET" "/users/me" none []
      = .error ⟨401,
          "Access token is required. Set it via the GM_TOKEN environment variable.",
          .null⟩
    ∧ API.uploadPictureBuild ⟨none⟩ [] "image/png"
      = .error ⟨401,
          "Access token is required. Set it via the GM_TOKEN environment variable.",
          .null⟩ :=
  ⟨(missing_token_fails_before_network ⟨none⟩ rfl).1 "GET" "/users/me" none [],
   (missing_token_fails_before_network ⟨none⟩ rfl).2 [] "image/png"⟩

/-- Claim C8 (counterexample): a caller-supplied empty-string content type is
not used unchanged — `if (!fileType)` treats it as absent, so the extension
inference runs instead. -/
theorem fromFile_empty_type_not_used :
    resolveFileType "photo.png" (some "") = "image/png"
    ∧ ("image/png" : String) ≠ "" := by
  constructor <;> decide

/-- Claim C8 (amended): with no caller-supplied content type,
`ImageAttachment.fromFile` infers `image/png` for extension `.png`,
`image/jpeg` for `.jpg` and `.jpeg`, `image/gif` for `.gif`, and
`application/octet-stream` for every other extension; a *non-empty*
caller-supplied content type is used unchanged (an empty one triggers the
same inference as absence). -/
theorem fromFile_content_type_inference (filePath : String) :
    (toLowerCase (extname filePath) = ".png" →
        resolveFileType filePath none = "image/png")
    ∧ (toLowerCase (extname filePath) = ".jpg" →
        resolveFileType filePath none = "image/jpeg")
    ∧ (toLowerCase (extname filePath) = ".jpeg" →
        resolveFileType filePath none = "image/jpeg")
    ∧ (toLowerCase (extname filePath) = ".gif" →
        resolveFileType filePath none = "image/gif")
    ∧ (toLowerCase (extname filePath) ∉ [".png", ".jpg", ".jpeg", ".gif"] →
        resolveFileType filePath none = "application/octet-stream")
    ∧ (∀ t, t ≠ "" → resolveFileType filePath (some t) = t) := by
  refine ⟨?_, ?_, ?_, ?_, ?_, ?_⟩
  · intro h
    unfold resolveFileType
    rw [h]
    rfl
  · intro h
    unfold resolveFileType
    rw [h]
    rfl
  · intro h
    unfold resolveFileType
    rw [h]
    rfl
  · intro h
    unfold resolveFileType
    rw [h]
    rfl
  · intro h
    simp only [List.mem_cons, List.mem_singleton, not_or] at h
    obtain ⟨h1, h2, h3, h4⟩ := h
    unfold resolveFileType
    simp [mimeTypes, lookup_cons, h1, h2, h3, h4]
  · intro t ht
    unfold resolveFileType
    simp [ht]

theorem fromFile_content_type_inference_witness :
    resolveFileType "photo.PNG" none = "image/png"
    ∧ resolveFileType "doc.txt" none = "application/octet-stream"
    ∧ resolveFileType "photo.png" (some "image/webp") = "image/webp" :=
  ⟨(fromFile_content_type_inference "photo.PNG").1 (by decide),
   (fromFile_content_type_inference "doc.txt").2.2.2.2.1 (by decide),
   (fromFile_content_type_inference "photo.png").2.2.2.2.2 "image/webp" (by decide)⟩

/-- Claim C9 (confirmed): when the caller's `queryParams` mapping itself
contains a `token` key, the built request's URL carries the merged query in
which `token` maps to the caller-supplied value — the object spread
`{token: accessToken, ...params}` assigns the caller's entry after the
configured token, overwriting it. -/
theorem caller_token_param_wins (cfg : Config) (accessToken : String)
    (method path : String) (body : Option JSValue)
    (params : List (String × String)) (v : String)
    (htok : cfg.gmToken = some accessToken) (hne : accessToken ≠ "")
    (hnodup : (params.map Prod.fst).Nodup)
    (hv : params.lookup "token" = some v) :
    (∃ req, API.requestBuild cfg method path body params = .ok req
        ∧ req.url = BASE_URL ++ path ++ "?" ++ renderQuery (mergeParams accessToken params))
    ∧ (mergeParams accessToken params).lookup "token" = some v := by
  have hb : API.requestBuild cfg method path body params
      = .ok
          { method := method
          , url := BASE_URL ++ path ++ "?" ++ renderQuery (mergeParams accessToken params)
          , headers := [("Content-Type", "application/json")]
          , body :=
              match body with
              | some b => if truthy b then some b else none
              | none => none } := by
    unfold API.requestBuild API.getAccessToken
    rw [htok]
    simp [hne]
  exact ⟨⟨_, hb, rfl⟩, mergeParams_caller_token accessToken params v hnodup hv⟩

theorem caller_token_param_wins_witness :
    (∃ req, API.requestBuild ⟨some "SECRET"⟩ "GET" "/groups" none
          [("token", "CALLER")] = .ok req
        ∧ req.url = BASE_URL ++ "/groups" ++ "?"
            ++ renderQuery (mergeParams "SECRET" [("token", "CALLER")]))
    ∧ (mergeParams "SECRET" [("token", "CALLER")]).lookup "token" = some "CALLER" :=
  caller_token_param_wins ⟨some "SECRET"⟩ "SECRET" "GET" "/groups" none
    [("token", "CALLER")] "CALLER" rfl (by decide) (by decide) rfl

/-- Claim C10 (counterexample): the payload `{attachments: 5}` carries a
truthy, non-list `attachments` value; the constructed message keeps the
number 5 verbatim, so the `attachments` field is not always a list. -/
theorem message_attachments_not_list :
    Message.fromData (.obj [("attachments", .num 5)]) = .ok msgNumAttachments
    ∧ msgNumAttachments.attachments = .num 5
    ∧ JSValue.isArray msgNumAttachments.attachments = false :=
  ⟨rfl, rfl, rfl⟩

/-- Claim C10 (amended): for every raw payload the constructor accepts, a
falsy `attachments` value (absent, `null`, …) defaults to the empty list
while a truthy one is kept verbatim, and every other recognized field is
copied verbatim — surfacing as `undefined` when missing from the payload. -/
theorem message_fields_copied (data : JSValue) (m : Message)
    (h : Message.fromData data = .ok m) :
    (m.attachments
        = if truthy (propValue data "attachments") then propValue data "attachments"
          else .arr [])
    ∧ (truthy (propValue data "attachments") = false → m.attachments = .arr [])
    ∧ m.avatarUrl = propValue data "avatar_url"
    ∧ m.createdAt = propValue data "created_at"
    ∧ m.groupId = propValue data "group_id"
    ∧ m.id = propValue data "id"
    ∧ m.name = propValue data "name"
    ∧ m.senderId = propValue data "sender_id"
    ∧ m.senderType = propValue data "sender_type"
    ∧ m.sourceGuid = propValue data "source_guid"
    ∧ m.isSystem = propValue data "system"
    ∧ m.text = propValue data "text"
    ∧ m.userId = propValue data "user_id" := by
  unfold Message.fromData at h
  by_cases hn : data.isNullish = true
  · rw [if_pos hn] at h
    exact absurd h (by simp)
  · rw [if_neg hn] at h
    rw [Except.ok.injEq] at h
    subst h
    refine ⟨rfl, ?_, rfl, rfl, rfl, rfl, rfl, rfl, rfl, rfl, rfl, rfl, rfl⟩
    intro hf
    simp [hf]

theorem message_fields_copied_witness :
    msgNumAttachments.attachments
      = (if truthy (propValue (JSValue.obj [("attachments", JSValue.num 5)]) "attachments")
          then propValue (JSValue.obj [("attachments", JSValue.num 5)]) "attachments"
          else JSValue.arr []) :=
  (message_fields_copied (.obj [("attachments", .num 5)]) msgNumAttachments rfl).1
